import Mathlib

/-!
Verification of the Scan–Advise–Verify workflow orchestrator of
`mcp_checkov_chatbot/main.py` against its natural-language specification.

The Python source is shallowly embedded: every external effect (a spawned
subprocess, the report file on disk, the HTTP call to the language-model
backend, the JSON decoder of the standard library) is an *input* to the
embedded function, given as an explicit outcome value; the pure control flow
of the Python code (branching, message construction, conversation mutation,
exception propagation) is translated directly.  A Python function that can
raise an uncaught exception is embedded as a function into `Except`, where
`.error e` means "the exception `e` propagates to the caller".

Note on string literals: the source file `main.py` literally contains
mojibake sequences (for example the bytes of a check-mark emoji re-decoded,
appearing as three characters).  All literals below reproduce the exact
characters of the source file.
-/

/-- JSON values, as produced by the standard-library decoder used at
`json.load` in `main.py`.  Objects are ordered key-value lists with the keys
of one object assumed distinct (what the decoder produces).  Numbers are
modelled as integers; no numeric field of the report is ever computed with. -/
inductive Json where
  | null : Json
  | bool : Bool → Json
  | num : Int → Json
  | str : String → Json
  | arr : List Json → Json
  | obj : List (String × Json) → Json

/-- A chat message: a `role`-tagged entry of the `chat_messages` list. -/
structure Msg where
  role : String
  content : String
deriving DecidableEq, Repr

/-- Outcome of one `subprocess.run` invocation, supplied by the environment:
the spawned command completed with an exit code and captured output, or the
process could not be started at all (`OSError`, e.g. a missing binary), or a
`subprocess.SubprocessError` was raised. -/
inductive ProcOutcome where
  | completed (exitCode : Int) (stdout stderr : String)
  | oserror (msg : String)
  | subprocessErr (msg : String)
deriving DecidableEq, Repr

/-- Outcome of one language-model backend call, supplied by the environment:
`ok content` means HTTP 2xx with a well-formed body whose first choice has
the given message content; `err` covers every raised exception (network
error, `raise_for_status` on a non-2xx response, malformed response body). -/
inductive LLMOutcome where
  | ok (content : String)
  | err
deriving DecidableEq, Repr

/-- Embeds `check_terraform_fmt` (main.py lines 17-23).  The `try/except
Exception` catches every failure of `subprocess.run`, so the function always
returns a string and never raises. -/
def check_terraform_fmt : ProcOutcome → String
  | .completed 0 _ _ => "‚úÖ All Terraform files are correctly formatted."
  | .completed _ out _ => "‚ö† Formatting issues:\n" ++ out.trim
  | .oserror e => "‚ùå Error running terraform fmt: " ++ e
  | .subprocessErr e => "‚ùå Error running terraform fmt: " ++ e

/-- Embeds `auto_terraform_fmt` (main.py lines 26-32); `result.stdout.strip()
or default` yields the default exactly when the stripped stdout is empty. -/
def auto_terraform_fmt : ProcOutcome → String
  | .completed _ out _ =>
      if out.trim = "" then "‚úÖ Auto-format complete. No changes." else out.trim
  | .oserror e => "‚ùå Error running terraform fmt: " ++ e
  | .subprocessErr e => "‚ùå Error running terraform fmt: " ++ e

/-- Embeds `check_terraform_validate` (main.py lines 35-42): first
`terraform init` runs (its result ignored), then `terraform validate`; an
exception from either is caught by the shared `except Exception`. -/
def check_terraform_validate : ProcOutcome → ProcOutcome → String
  | .oserror e, _ => "‚ùå Error running terraform validate: " ++ e
  | .subprocessErr e, _ => "‚ùå Error running terraform validate: " ++ e
  | .completed _ _ _, .oserror e => "‚ùå Error running terraform validate: " ++ e
  | .completed _ _ _, .subprocessErr e => "‚ùå Error running terraform validate: " ++ e
  | .completed _ _ _, .completed 0 _ _ => "‚úÖ Terraform configuration is valid."
  | .completed _ _ _, .completed _ out _ => "‚ùå Validation failed:\n" ++ out.trim

/-- Embeds `run_checkov_scan` (main.py lines 45-60).  No `check=True` and no
timeout are passed, so a completed docker command never raises regardless of
its exit code; the handler `except subprocess.SubprocessError` does NOT
cover `OSError` (a missing `docker` binary), so that exception propagates to
the caller, modelled as `.error`.  On completion the scanner stdout is
written to `report.json` (a side effect on the report artifact, which the
main-loop embedding receives as a separate environment input). -/
def run_checkov_scan : ProcOutcome → Except String String
  | .completed _ _ _ => .ok "‚úÖ Checkov scan done. Output: report.json"
  | .subprocessErr e => .ok ("‚ùå Checkov error: " ++ e)
  | .oserror e => .error e

/-- Rendering of the `CalledProcessError` raised by `subprocess.run(...,
check=True)` on a non-zero exit code, as interpolated into the f-string of
`create_git_pr_docker` (the exact `str(e)` wording is abbreviated; only the
exit code matters to the embedding). -/
def calledProcessErrorStr (code : Int) : String :=
  "Command returned non-zero exit status " ++ toString code ++ "."

/-- Embeds `create_git_pr_docker` (main.py lines 106-129).  `check=True`
turns a non-zero exit into `CalledProcessError`, which the handler catches
and converts to a returned message; an `OSError` (docker binary missing) is
not a `CalledProcessError` and propagates, modelled as `.error`. -/
def create_git_pr_docker : ProcOutcome → Except String String
  | .completed code _ _ =>
      if code = 0 then .ok "‚úÖ PR branch pushed to GitHub: fix/checkov-patch"
      else .ok ("‚ùå Error creating PR: " ++ calledProcessErrorStr code)
  | .subprocessErr e => .error e
  | .oserror e => .error e

/-- Embeds `LLMClient.get_response` (main.py lines 86-103): the whole
request/decode is wrapped in `try/except Exception`, which converts every
backend failure into the returned sentinel text, so the function always
returns a string and never raises. -/
def get_response : LLMOutcome → String
  | .ok content => content
  | .err => "‚ùå GPT Error"

/-- Python `repr` of a decoded JSON value, for the subset modelled here
(used by `str()` on non-string values interpolated into f-strings). -/
def pyRepr : Json → String
  | .null => "None"
  | .bool true => "True"
  | .bool false => "False"
  | .num n => toString n
  | .str s => "\x27" ++ s ++ "\x27"
  | .arr es => "[" ++ String.intercalate ", " (es.attach.map fun x => pyRepr x.1) ++ "]"
  | .obj kvs =>
      "\x7b" ++
      String.intercalate ", "
        (kvs.attach.map fun x => "\x27" ++ x.1.1 ++ "\x27: " ++ pyRepr x.1.2) ++
      "\x7d"
decreasing_by
  · have := List.sizeOf_lt_of_mem x.2; simp at this ⊢; omega
  · have h1 := List.sizeOf_lt_of_mem x.2
    have h2 : sizeOf (x.1.2) < sizeOf x.1 := by
      obtain ⟨⟨a, b⟩, hx⟩ := x; simp
    simp at h1 h2 ⊢; omega

/-- Python `str()` of a decoded JSON value, as interpolated by an f-string. -/
def pyStr : Json → String
  | .str s => s
  | j => pyRepr j

/-- Python `str()` of the result of `dict.get(key)` with its `None` default:
`None` renders as the four characters `None`. -/
def pyStrOpt : Option Json → String
  | none => "None"
  | some j => pyStr j

/-- Embeds `value.get(key)` (single-argument `dict.get`, default `None`):
an `AttributeError` propagates when the receiver is not a dict. -/
def pyGetOpt : Json → String → Except String (Option Json)
  | .obj kvs, k => .ok (kvs.lookup k)
  | _, _ => .error "AttributeError: get"

/-- Embeds `value.get(key, default)` (two-argument `dict.get`). -/
def pyGetAttr : Json → String → Json → Except String Json
  | .obj kvs, k, dflt => .ok ((kvs.lookup k).getD dflt)
  | _, _, _ => .error "AttributeError: get"

/-- Python truthiness of a decoded JSON value (`if failed:`). -/
def pyTruthy : Json → Bool
  | .null => false
  | .bool b => b
  | .num n => n != 0
  | .str s => !s.isEmpty
  | .arr es => !es.isEmpty
  | .obj kvs => !kvs.isEmpty

/-- Embeds `report.get("results", {}).get("failed_checks", [])` followed by
the truthiness test and the uses `len(failed)` / `failed[:3]` (main.py lines
186-189 and 232-234).  A falsy non-list value behaves exactly like the empty
list in every use the code makes of it; a truthy non-list value leads to a
raised `TypeError`/`AttributeError` at one of those uses, condensed here
into an immediate `.error`. -/
def pyFailedChecks (report : Json) : Except String (List Json) :=
  match pyGetAttr report "results" (.obj []) with
  | .error e => .error e
  | .ok results =>
    match pyGetAttr results "failed_checks" (.arr []) with
    | .error e => .error e
    | .ok fc =>
      match fc with
      | .arr l => .ok l
      | v => if pyTruthy v then .error "TypeError: failed_checks is not a list" else .ok []

/-- Embeds `line[1]` for one entry of `code_block` followed by its use in
`"\n".join(...)`, which requires the indexed value to be a string: for a
pair (a two-or-more element array) the second element must be a string; a
string of length at least two indexes to its second character; everything
else raises. -/
def pyLineText : Json → Except String String
  | .arr es =>
      match es.get? 1 with
      | some (.str s) => .ok s
      | some _ => .error "TypeError: sequence item is not str"
      | none => .error "IndexError: list index out of range"
  | .str s =>
      match s.toList.get? 1 with
      | some ch => .ok (String.mk [ch])
      | none => .error "IndexError: string index out of range"
  | _ => .error "TypeError: value is not subscriptable"

/-- Embeds the generator `(line[1] for line in ...)` consumed by
`"\n".join`: the first raising element aborts the whole expression. -/
def pyLinesList : List Json → Except String (List String)
  | [] => .ok []
  | l :: rest =>
    match pyLineText l with
    | .error e => .error e
    | .ok s =>
      match pyLinesList rest with
      | .error e => .error e
      | .ok ss => .ok (s :: ss)

/-- Embeds iteration over `check.get("code_block", [])` in the join: the
value must be a list (iteration over any other decoded JSON value either
raises or, for strings and objects, leads to a raise at `line[1]` or at the
join; condensed into `.error`). -/
def pyLines : Json → Except String (List String)
  | .arr es => pyLinesList es
  | _ => .error "TypeError: code_block is not iterable as pairs"

/-- Builds the advisory prompt f-string of main.py lines 196-207 from the
five already-rendered components. -/
def buildPrompt (check_name check_id resource file_path code_block : String) : String :=
  "Checkov found a vulnerability:\n\n* Check Name: " ++ check_name ++ " (" ++ check_id ++
  ")\n* Resource: " ++ resource ++ "\n* File: " ++ file_path ++
  "\n\nCode Block:\n\n" ++ code_block ++ "\n\nüëâ Suggest a fix using best practices.\n"

/-- Embeds the field extraction and prompt construction of main.py lines
190-207 for one entry `check` of the failed-checks list: the five `get`
calls, the join of the code block, and the f-string.  Returns the rendered
`check_id` (reused by the suggestion print) together with the prompt. -/
def extractPrompt (check : Json) : Except String (String × String) :=
  match pyGetOpt check "resource" with
  | .error e => .error e
  | .ok resource =>
  match pyGetOpt check "check_id" with
  | .error e => .error e
  | .ok check_id =>
  match pyGetOpt check "check_name" with
  | .error e => .error e
  | .ok check_name =>
  match pyGetOpt check "file_path" with
  | .error e => .error e
  | .ok file_path =>
  match pyGetAttr check "code_block" (.arr []) with
  | .error e => .error e
  | .ok cb =>
  match pyLines cb with
  | .error e => .error e
  | .ok lines =>
    let code_block := String.intercalate "\n" lines
    let cid := pyStrOpt check_id
    .ok (cid, buildPrompt (pyStrOpt check_name) cid (pyStrOpt resource)
      (pyStrOpt file_path) code_block)

/-- Embeds one advisory call, main.py lines 196-211: build the prompt,
append the user turn, call the backend (`get_response` never raises), and
append the assistant turn with whatever `get_response` returned — the
sentinel included.  Returns the new conversation, the reply and the rendered
`check_id`. -/
def adviseStepJ (c : List Msg) (check : Json) (o : LLMOutcome) :
    Except String (List Msg × String × String) :=
  match extractPrompt check with
  | .error e => .error e
  | .ok (cid, prompt) =>
    let c1 := c ++ [⟨"user", prompt⟩]
    let reply := get_response o
    .ok (c1 ++ [⟨"assistant", reply⟩], reply, cid)

/-- Result of the advisory loop: final conversation, the suggestion lines
printed (one per finding, in order), and the raw checks processed. -/
structure AdvOut where
  conv : List Msg
  printed : List String
  processed : List Json

/-- Embeds `for check in failed[:3]` (main.py lines 189-211), applied to an
already-sliced list.  The environment supplies the backend outcome of the
i-th call through `oracle`.  A raised exception inside the loop carries the
suggestion lines printed before it. -/
def adviseLoopJ (oracle : Nat → LLMOutcome) :
    List Msg → Nat → List Json → Except (String × List String) AdvOut
  | c, _, [] => .ok ⟨c, [], []⟩
  | c, i, ch :: rest =>
    match adviseStepJ c ch (oracle i) with
    | .error e => .error (e, [])
    | .ok (c1, reply, cid) =>
      let line := "\nüí° Suggestion for " ++ cid ++ ":\n" ++ reply ++ "\n"
      match adviseLoopJ oracle c1 (i + 1) rest with
      | .error (e, ps) => .error (e, line :: ps)
      | .ok out => .ok ⟨out.conv, line :: out.printed, ch :: out.processed⟩

/-- Result of one iteration of the command loop: the conversation after the
iteration, everything printed by it, whether `exit` was requested, the raw
checks advised upon, and whether `json.load` was invoked on the artifact. -/
structure Step where
  conv : List Msg
  printed : List String
  exited : Bool
  advised : List Json
  parsed : Bool

/-- State of the `report.json` artifact, supplied by the environment:
`none` when the file does not exist (`os.path.exists` is false), otherwise
the outcome of `json.load` on its contents (`.error` for a
`json.JSONDecodeError`, `.ok` for the decoded document). -/
def Artifact : Type := Option (Except String Json)

/-- Embeds the `scan` command branch, main.py lines 176-213: run the scan
(whose launch failure propagates), then — only if the artifact file exists —
parse it; a decode error prints a message and abandons the iteration
(`continue`); otherwise the failed checks drive the advisory loop or the
no-failed-checks message. -/
def scanCmd (scanProc : ProcOutcome) (artifact : Artifact)
    (oracle : Nat → LLMOutcome) (c : List Msg) : Except (String × List String) Step :=
  match run_checkov_scan scanProc with
  | .error e => .error (e, [])
  | .ok scanMsg =>
    match artifact with
    | none => .ok ⟨c, [scanMsg], false, [], false⟩
    | some (.error _) =>
        .ok ⟨c, [scanMsg, "‚ùå Failed to parse Checkov report."], false, [], true⟩
    | some (.ok report) =>
      match pyFailedChecks report with
      | .error e => .error (e, [scanMsg])
      | .ok failed =>
        if failed.isEmpty then
          .ok ⟨c, [scanMsg, "‚úÖ No failed checks found."], false, [], true⟩
        else
          let header := "‚ö† Found " ++ toString failed.length ++
            " issues. Suggesting fixes for top 3:"
          match adviseLoopJ oracle c 0 (failed.take 3) with
          | .error (e, ps) => .error (e, scanMsg :: header :: ps)
          | .ok out => .ok ⟨out.conv, scanMsg :: header :: out.printed, false, out.processed, true⟩

/-- Embeds the `pr` command branch, main.py lines 215-236: announce, push
(an uncaught push exception propagates with only the announcement printed),
then always re-run the scan and re-read the artifact; the verdict line
depends only on emptiness of the post-fix failed checks. -/
def prCmd (pushProc scanProc : ProcOutcome) (artifact : Artifact)
    (c : List Msg) : Except (String × List String) Step :=
  let banner := "üöÄ Creating GitHub PR using Docker..."
  match create_git_pr_docker pushProc with
  | .error e => .error (e, [banner])
  | .ok prMsg =>
    let reverify := "üîç Re-running Checkov to verify if issues are fixed..."
    match run_checkov_scan scanProc with
    | .error e => .error (e, [banner, prMsg, reverify])
    | .ok scanMsg =>
      let p2 := [banner, prMsg, reverify, scanMsg]
      match artifact with
      | none => .ok ⟨c, p2, false, [], false⟩
      | some (.error _) =>
          .ok ⟨c, p2 ++ ["‚ùå Failed to parse Checkov report."], false, [], true⟩
      | some (.ok report) =>
        match pyFailedChecks report with
        | .error e => .error (e, p2)
        | .ok failed =>
          let verdict :=
            if failed.isEmpty then "‚úÖ All vulnerabilities resolved after PR! üéâ"
            else "‚ö† Still found " ++ toString failed.length ++
              " issues after PR. Further review needed."
          .ok ⟨c, p2 ++ [verdict], false, [], true⟩

/-- The environment of one loop iteration: outcomes of every external
subprocess the iteration may spawn, the artifact state read back after a
scan, and the backend outcome of each language-model call. -/
structure World where
  fmtProc : ProcOutcome
  autoProc : ProcOutcome
  valInitProc : ProcOutcome
  valRunProc : ProcOutcome
  scanProc : ProcOutcome
  pushProc : ProcOutcome
  artifact : Artifact
  llm : Nat → LLMOutcome

/-- Embeds Python `str.strip()` with no argument: drop leading and trailing
whitespace characters (the ASCII whitespace set modelled here). -/
def pyStrip (s : String) : String :=
  String.mk (((s.toList.dropWhile Char.isWhitespace).reverse.dropWhile
    Char.isWhitespace).reverse)

/-- Embeds Python `str.lower()` (commands are ASCII; the ASCII lowering of
`Char.toLower` models it). -/
def pyLower (s : String) : String := String.mk (s.toList.map Char.toLower)

/-- Embeds `input(...).strip().lower()` (main.py line 162). -/
def normalizeInput (s : String) : String := pyLower (pyStrip s)

/-- Dispatch on the already-normalized command word, main.py lines 164-242.
The free-text fallback appends the *normalized* input as the user turn and
always appends the assistant turn. -/
def dispatch (w : World) (c : List Msg) (u : String) : Except (String × List String) Step :=
  if u = "exit" then .ok ⟨c, [], true, [], false⟩
  else if u = "fmt" then .ok ⟨c, [check_terraform_fmt w.fmtProc], false, [], false⟩
  else if u = "auto_fmt" then .ok ⟨c, [auto_terraform_fmt w.autoProc], false, [], false⟩
  else if u = "validate" then
    .ok ⟨c, [check_terraform_validate w.valInitProc w.valRunProc], false, [], false⟩
  else if u = "scan" then scanCmd w.scanProc w.artifact w.llm c
  else if u = "pr" then prCmd w.pushProc w.scanProc w.artifact c
  else
    let c1 := c ++ [⟨"user", u⟩]
    let reply := get_response (w.llm 0)
    .ok ⟨c1 ++ [⟨"assistant", reply⟩], ["\nü§ñ GPT-4o:\n" ++ reply ++ "\n"], false, [], false⟩

/-- One iteration of the `while True` command loop, main.py lines 161-242. -/
def loopStep (w : World) (c : List Msg) (raw : String) : Except (String × List String) Step :=
  dispatch w c (normalizeInput raw)

/-- The initial conversation, main.py lines 154-157. -/
def initialConv : List Msg :=
  [⟨"system", "You are a DevSecOps assistant. Help with Terraform, Checkov, AWS security best practices, and GitHub PRs."⟩]

/-- A Finding of the data model (spec section 3): the five fields the scan
boundary guarantees for each entry of `results.failed_checks`, with
`code_block` an ordered list of (line-number, line-text) pairs. -/
structure Finding where
  check_id : String
  check_name : String
  resource : String
  file_path : String
  code_block : List (Nat × String)

/-- JSON encoding of one code-block pair, as the scanner boundary emits it. -/
def encPair (p : Nat × String) : Json := .arr [.num (Int.ofNat p.1), .str p.2]

/-- JSON encoding of a Finding, as the scanner boundary emits one entry of
`results.failed_checks`. -/
def encodeFinding (f : Finding) : Json :=
  .obj [("check_id", .str f.check_id), ("check_name", .str f.check_name),
        ("resource", .str f.resource), ("file_path", .str f.file_path),
        ("code_block", .arr (f.code_block.map encPair))]

/-- A well-formed report whose `results.failed_checks` is exactly the given
findings, in order. -/
def reportOf (fs : List Finding) : Json :=
  .obj [("results", .obj [("failed_checks", .arr (fs.map encodeFinding))])]

/-- Prompt as the specification describes it (section 4.3): a deterministic
function of the Finding's `check_name`, `check_id`, `resource`, `file_path`
and the code block reconstructed by joining the line-text components (the
second of each pair, the line number excluded) with newline, in original
order, each text verbatim. -/
def specPrompt (f : Finding) : String :=
  buildPrompt f.check_name f.check_id f.resource f.file_path
    (String.intercalate "\n" (f.code_block.map Prod.snd))

/-- Reference form of the advisory loop over decoded findings: the
conversation growth and printed suggestion lines it must produce. -/
def adviseAll (oracle : Nat → LLMOutcome) :
    List Msg → Nat → List Finding → List Msg × List String
  | c, _, [] => (c, [])
  | c, i, f :: rest =>
    let reply := get_response (oracle i)
    let line := "\nüí° Suggestion for " ++ f.check_id ++ ":\n" ++ reply ++ "\n"
    let r := adviseAll oracle
      (c ++ [⟨"user", specPrompt f⟩, ⟨"assistant", reply⟩]) (i + 1) rest
    (r.1, line :: r.2)

/-- Printed suggestions projection of a loop-iteration result, the lines
printed before a propagating exception included. -/
def printedOf : Except (String × List String) Step → List String
  | .ok st => st.printed
  | .error (_, ps) => ps

/-- Advised-checks projection of a loop-iteration result. -/
def advisedOf : Except (String × List String) Step → List Json
  | .ok st => st.advised
  | .error _ => []

/-- A concrete finding used by witnesses and counterexamples. -/
def exFinding : Finding :=
  ⟨"CKV_AWS_1", "Ensure the bucket is private", "aws_s3_bucket.b", "/tf/main.tf",
   [(3, "resource x"), (4, "  acl = public")]⟩

/-- A well-formed report document that lacks a results section, or whose
results section lacks the failed-checks key, or whose failed-checks array is
empty (the shapes named by the specification for the zero-findings case). -/
def lacksFindings (report : Json) : Prop :=
  ∃ kvs, report = .obj kvs ∧
    (kvs.lookup "results" = none ∨
     ∃ rkvs, kvs.lookup "results" = some (.obj rkvs) ∧
       (rkvs.lookup "failed_checks" = none ∨ rkvs.lookup "failed_checks" = some (.arr [])))

/-- Environment for the launch-failure counterexample: every subprocess of
the iteration would succeed except the scanner, whose binary is missing. -/
def exWorldScanFail : World :=
  ⟨.completed 0 "" "", .completed 0 "" "", .completed 0 "" "", .completed 0 "" "",
   .oserror "No such file or directory", .completed 0 "" "", none, fun _ => .err⟩

/-- Environment for the free-chat witness: every subprocess would succeed,
no artifact, and a backend that answers. -/
def exWorldChat : World :=
  ⟨.completed 0 "" "", .completed 0 "" "", .completed 0 "" "", .completed 0 "" "",
   .completed 0 "" "", .completed 0 "" "", none, fun _ => .ok "HI"⟩

/-- Content of the user message a successful advisory step appended right
after the prior conversation (the new prompt the request carries). -/
def newPromptContent (c : List Msg) (r : Except String (List Msg × String × String)) :
    Option String :=
  match r with
  | .ok out => ((out.1.drop c.length).head?).map Msg.content
  | .error _ => none

/-- The six command words of the dispatch, main.py lines 164-236. -/
def isCommandWord (u : String) : Bool :=
  u == "exit" || u == "fmt" || u == "auto_fmt" || u == "validate" || u == "scan" || u == "pr"

/-- Helper: the code-block join succeeds on scanner-shaped pairs and yields
exactly the second components, in order. -/
theorem pyLinesList_encode (cb : List (Nat × String)) :
    pyLinesList (cb.map encPair) = .ok (cb.map Prod.snd) := by
  induction cb with
  | nil => rfl
  | cons p rest ih => simp [pyLinesList, pyLineText, encPair, ih]

/-- Helper: on a well-formed finding object the source extraction pipeline
produces the rendered `check_id` and exactly the specification prompt. -/
theorem extractPrompt_encode (f : Finding) :
    extractPrompt (encodeFinding f) = .ok (f.check_id, specPrompt f) := by
  have h := pyLinesList_encode f.code_block
  simp [extractPrompt, encodeFinding, pyGetOpt, pyGetAttr, pyLines, h, specPrompt,
    buildPrompt, pyStrOpt, pyStr, List.lookup]

/-- Helper: a report built from findings decodes to exactly those findings. -/
theorem pyFailedChecks_reportOf (fs : List Finding) :
    pyFailedChecks (reportOf fs) = .ok (fs.map encodeFinding) := rfl

/-- Helper: the advisory loop on well-formed finding objects never raises;
its conversation and printed lines are those of `adviseAll` and it processes
every element of its input list. -/
theorem adviseLoopJ_encode (oracle : Nat → LLMOutcome) (fs : List Finding) :
    ∀ c i, adviseLoopJ oracle c i (fs.map encodeFinding) =
      .ok ⟨(adviseAll oracle c i fs).1, (adviseAll oracle c i fs).2, fs.map encodeFinding⟩ := by
  induction fs with
  | nil => intro c i; rfl
  | cons f rest ih =>
    intro c i
    simp [adviseLoopJ, adviseStepJ, extractPrompt_encode, adviseAll, ih]

/-- Helper: `adviseAll` prints exactly one suggestion line per finding. -/
theorem adviseAll_printed_length (oracle : Nat → LLMOutcome) (fs : List Finding) :
    ∀ c i, (adviseAll oracle c i fs).2.length = fs.length := by
  induction fs with
  | nil => intro c i; rfl
  | cons f rest ih => intro c i; simp [adviseAll, ih]

/-- Claim C1, counterexample: with the backend failing, the advisory call
returns the sentinel text but the conversation is NOT left as it was — the
user prompt and an assistant turn carrying the sentinel are both appended,
so a retry would re-send the prompt plus the recorded failure turn. -/
theorem advisory_failure_mutates_conversation_cex :
    adviseStepJ initialConv (encodeFinding exFinding) .err
      = .ok (initialConv ++ [⟨"user", specPrompt exFinding⟩, ⟨"assistant", "‚ùå GPT Error"⟩],
          "‚ùå GPT Error", "CKV_AWS_1") ∧
    initialConv ++ ([⟨"user", specPrompt exFinding⟩, ⟨"assistant", "‚ùå GPT Error"⟩] : List Msg)
      ≠ initialConv ∧
    (initialConv ++ ([⟨"user", specPrompt exFinding⟩,
      ⟨"assistant", "‚ùå GPT Error"⟩] : List Msg)).length = initialConv.length + 2 :=
  ⟨rfl, by decide, rfl⟩

/-- Claim C1 (amended): on a language-model backend failure the advisory call
returns the sentinel failure text, but it appends the user prompt and an
assistant turn containing the sentinel to the conversation, which therefore
grows by exactly two messages; a retry re-sends the prompt again after the
recorded failure turn. -/
theorem advisory_failure_appends_sentinel_turn (c : List Msg) (check : Json)
    (cid p : String) (h : extractPrompt check = .ok (cid, p)) :
    adviseStepJ c check .err
      = .ok (c ++ [⟨"user", p⟩, ⟨"assistant", "‚ùå GPT Error"⟩], "‚ùå GPT Error", cid) := by
  simp [adviseStepJ, h, get_response]

/-- Claim C1, witness for the amended theorem at a concrete conversation,
finding and failing backend. -/
theorem advisory_failure_appends_sentinel_turn_witness :
    adviseStepJ [⟨"system", "s"⟩] (encodeFinding exFinding) .err
      = .ok ([⟨"system", "s"⟩] ++ [⟨"user", specPrompt exFinding⟩, ⟨"assistant", "‚ùå GPT Error"⟩],
          "‚ùå GPT Error", "CKV_AWS_1") :=
  advisory_failure_appends_sentinel_turn [⟨"system", "s"⟩] (encodeFinding exFinding)
    "CKV_AWS_1" (specPrompt exFinding) rfl

/-- Claim C2 (confirmed): for a parsed report whose failed-checks sequence
has length n, the scan branch advises exactly the first min(3, n) findings,
in emission order; the rest are not advised. -/
theorem scan_advises_first_three_in_order (code : Int) (out err : String)
    (oracle : Nat → LLMOutcome) (c : List Msg) (fs : List Finding) :
    advisedOf (scanCmd (.completed code out err) (some (.ok (reportOf fs))) oracle c)
      = (fs.take 3).map encodeFinding ∧
    (advisedOf (scanCmd (.completed code out err) (some (.ok (reportOf fs))) oracle c)).length
      = min 3 fs.length := by
  cases fs with
  | nil => exact ⟨rfl, rfl⟩
  | cons f rest =>
    have h2 : (encodeFinding f :: List.map encodeFinding rest).take 3
        = List.map encodeFinding ((f :: rest).take 3) := by
      rw [← List.map_cons, List.map_take]
    have h3 := adviseLoopJ_encode oracle ((f :: rest).take 3) c 0
    constructor
    · simp only [scanCmd, run_checkov_scan, pyFailedChecks_reportOf, List.map_cons,
        List.isEmpty_cons, Bool.false_eq_true, if_false, h2, h3, advisedOf]
    · simp only [scanCmd, run_checkov_scan, pyFailedChecks_reportOf, List.map_cons,
        List.isEmpty_cons, Bool.false_eq_true, if_false, h2, h3, advisedOf]
      simp [List.length_take]
      omega

/-- Claim C3, counterexample: when the report artifact is missing the scan
cycle does not attempt parsing at all and prints no failure message — it is
not treated the same as a malformed report, which does print one. -/
theorem scan_missing_artifact_not_parsed_cex :
    (scanCmd (.completed 0 "" "") none (fun _ => .err) initialConv
      = .ok ⟨initialConv, ["‚úÖ Checkov scan done. Output: report.json"], false, [], false⟩) ∧
    ("‚ùå Failed to parse Checkov report." ∉
      printedOf (scanCmd (.completed 0 "" "") none (fun _ => .err) initialConv)) ∧
    ("‚ùå Failed to parse Checkov report." ∈
      printedOf (scanCmd (.completed 0 "" "")
        (some (.error "Expecting value: line 1 column 1")) (fun _ => .err) initialConv)) :=
  ⟨rfl, by decide, by decide⟩

/-- Claim C3 (amended): when the artifact exists but is not well-formed
JSON, the cycle prints a parse-failure message and is abandoned for this
iteration — never classified as zero findings or resolved — and no exception
propagates; but when the artifact file is missing, parsing is not attempted
at all and the branch silently ends after the scan message, with no failure
message — a missing artifact is NOT treated the same as a malformed one. -/
theorem scan_malformed_vs_missing_artifact (code : Int) (out err e : String)
    (oracle : Nat → LLMOutcome) (c : List Msg) :
    scanCmd (.completed code out err) (some (.error e)) oracle c
      = .ok ⟨c, ["‚úÖ Checkov scan done. Output: report.json",
                 "‚ùå Failed to parse Checkov report."], false, [], true⟩ ∧
    scanCmd (.completed code out err) none oracle c
      = .ok ⟨c, ["‚úÖ Checkov scan done. Output: report.json"], false, [], false⟩ :=
  ⟨rfl, rfl⟩

/-- Helper: each zero-findings shape decodes to the empty failed list. -/
theorem pyFailedChecks_of_lacks {report : Json} (h : lacksFindings report) :
    pyFailedChecks report = .ok [] := by
  obtain ⟨kvs, rfl, h⟩ := h
  rcases h with h | ⟨rkvs, hr, h2 | h2⟩
  · simp [pyFailedChecks, pyGetAttr, h]
  · simp [pyFailedChecks, pyGetAttr, hr, h2]
  · simp [pyFailedChecks, pyGetAttr, hr, h2]

/-- Claim C4 (confirmed): a well-formed report lacking a results section or
with an empty failed-checks array parses to zero findings without error; the
scan branch prints the no-failed-checks message, advises nothing, and leaves
the conversation untouched — no language-model call is made. -/
theorem scan_no_findings_no_advisory (code : Int) (out err : String)
    (oracle : Nat → LLMOutcome) (c : List Msg) (report : Json)
    (h : lacksFindings report) :
    scanCmd (.completed code out err) (some (.ok report)) oracle c
      = .ok ⟨c, ["‚úÖ Checkov scan done. Output: report.json",
                 "‚úÖ No failed checks found."], false, [], true⟩ := by
  simp [scanCmd, run_checkov_scan, pyFailedChecks_of_lacks h]

/-- Claim C4, witness at the empty object report. -/
theorem scan_no_findings_no_advisory_witness :
    scanCmd (.completed 0 "" "") (some (.ok (Json.obj []))) (fun _ => .err) initialConv
      = .ok ⟨initialConv, ["‚úÖ Checkov scan done. Output: report.json",
                 "‚úÖ No failed checks found."], false, [], true⟩ :=
  scan_no_findings_no_advisory 0 "" "" (fun _ => .err) initialConv (Json.obj [])
    ⟨[], rfl, Or.inl rfl⟩

/-- Claim C5, counterexample: when the push subprocess cannot be launched
(missing docker binary), the exception propagates out of the pr branch after
only the banner was printed — the reverification scan does not execute, so
the reverification does not always run on a push failure. -/
theorem pr_push_launch_failure_skips_reverify_cex :
    prCmd (.oserror "docker: command not found") (.completed 0 "" "")
        (some (.ok (reportOf []))) initialConv
      = .error ("docker: command not found", ["üöÄ Creating GitHub PR using Docker..."]) ∧
    "üîç Re-running Checkov to verify if issues are fixed..." ∉
      printedOf (prCmd (.oserror "docker: command not found") (.completed 0 "" "")
        (some (.ok (reportOf []))) initialConv) :=
  ⟨rfl, by decide⟩

/-- Claim C5 (amended): for every push outcome that the push step itself
reports as a result — success, or a non-zero exit caught as
`CalledProcessError` — the failure is surfaced as its own printed message
and the reverification scan still executes, with the cycle classified as
resolved exactly when the post-fix failed-checks list is empty and
unresolved exactly when it is non-empty; but when the push subprocess cannot
be launched at all, the exception propagates and reverification is skipped. -/
theorem pr_reported_push_failure_still_reverifies (pcode : Int) (pout perr : String)
    (scode : Int) (sout serr : String) (c : List Msg) (report : Json)
    (failed : List Json) (pm : String)
    (hpush : create_git_pr_docker (.completed pcode pout perr) = .ok pm)
    (hpf : pyFailedChecks report = .ok failed) :
    prCmd (.completed pcode pout perr) (.completed scode sout serr)
        (some (.ok report)) c
      = .ok ⟨c, ["üöÄ Creating GitHub PR using Docker...", pm,
                 "üîç Re-running Checkov to verify if issues are fixed...",
                 "‚úÖ Checkov scan done. Output: report.json",
                 if failed.isEmpty then "‚úÖ All vulnerabilities resolved after PR! üéâ"
                 else "‚ö† Still found " ++ toString failed.length ++
                   " issues after PR. Further review needed."],
            false, [], true⟩ := by
  simp [prCmd, run_checkov_scan, hpush, hpf]

/-- Claim C5, witness: the push exits non-zero (a reported failure), the
reverify scan still runs and finds one issue, so the cycle is unresolved
with the push failure surfaced separately. -/
theorem pr_reported_push_failure_still_reverifies_witness :
    prCmd (.completed 1 "" "") (.completed 0 "" "")
        (some (.ok (reportOf [exFinding]))) initialConv
      = .ok ⟨initialConv,
            ["üöÄ Creating GitHub PR using Docker...",
             "‚ùå Error creating PR: " ++ calledProcessErrorStr 1,
             "üîç Re-running Checkov to verify if issues are fixed...",
             "‚úÖ Checkov scan done. Output: report.json",
             if ([encodeFinding exFinding] : List Json).isEmpty then
               "‚úÖ All vulnerabilities resolved after PR! üéâ"
             else "‚ö† Still found " ++ toString ([encodeFinding exFinding] : List Json).length ++
               " issues after PR. Further review needed."],
            false, [], true⟩ :=
  pr_reported_push_failure_still_reverifies 1 "" "" 0 "" "" initialConv
    (reportOf [exFinding]) [encodeFinding exFinding]
    ("‚ùå Error creating PR: " ++ calledProcessErrorStr 1) rfl rfl

/-- Claim C6, counterexample: a launch failure of the scanner or of the
branch-push docker command is not converted to an error result — it
propagates as an exception, and in the command loop it escapes the
iteration (there is no surrounding handler), terminating the process. -/
theorem toolrunner_launch_failure_raises_cex :
    run_checkov_scan (.oserror "No such file or directory")
      = .error "No such file or directory" ∧
    create_git_pr_docker (.oserror "No such file or directory")
      = .error "No such file or directory" ∧
    loopStep exWorldScanFail initialConv "scan"
      = .error ("No such file or directory", []) :=
  ⟨rfl, rfl, rfl⟩

/-- Claim C6 (amended): no operation raises for a non-zero exit code of a
completed external command; a launch failure (`OSError`, e.g. missing
binary) is caught and returned as an error-message result by the format
check, auto-format and validate operations (whose handlers catch every
exception), but the scan and branch-push handlers catch only
subprocess-specific errors, so there a launch failure propagates as an
uncaught exception and aborts the command loop. -/
theorem toolrunner_nonzero_never_raises_launch_split (code : Int)
    (out err m : String) (initP : ProcOutcome) :
    (∃ s, run_checkov_scan (.completed code out err) = .ok s) ∧
    (∃ s, create_git_pr_docker (.completed code out err) = .ok s) ∧
    check_terraform_fmt (.oserror m) = "‚ùå Error running terraform fmt: " ++ m ∧
    auto_terraform_fmt (.oserror m) = "‚ùå Error running terraform fmt: " ++ m ∧
    check_terraform_validate (.oserror m) initP
      = "‚ùå Error running terraform validate: " ++ m ∧
    run_checkov_scan (.oserror m) = .error m ∧
    create_git_pr_docker (.oserror m) = .error m := by
  refine ⟨⟨_, rfl⟩, ?_, rfl, rfl, rfl, rfl, rfl⟩
  rcases eq_or_ne code 0 with h | h
  · exact ⟨"‚úÖ PR branch pushed to GitHub: fix/checkov-patch",
      by simp [create_git_pr_docker, h]⟩
  · exact ⟨"‚ùå Error creating PR: " ++ calledProcessErrorStr code,
      by simp [create_git_pr_docker, h]⟩

/-- Claim C7 (confirmed): every backend error is absorbed by `get_response`
into the sentinel text — a domain-level advisory failure value, never a
propagated transport exception — and therefore, whatever the per-call
backend outcomes are (any may fail), the advisory loop completes without
raising, advises every selected finding, and reports one suggestion line per
finding. -/
theorem advisory_failure_isolated_across_findings (oracle : Nat → LLMOutcome)
    (c : List Msg) (fs : List Finding) :
    get_response .err = "‚ùå GPT Error" ∧
    ∃ out, adviseLoopJ oracle c 0 (fs.map encodeFinding) = .ok out ∧
      out.processed = fs.map encodeFinding ∧ out.printed.length = fs.length :=
  ⟨rfl, _, adviseLoopJ_encode oracle fs c 0, rfl, adviseAll_printed_length oracle fs c 0⟩

/-- Claim C8 (confirmed): on a well-formed finding object, the source
extraction-and-prompt pipeline yields exactly the prompt described by the
specification — a function of `check_name`, `check_id`, `resource`,
`file_path` and the code block reconstructed as the line-text components of
the pairs (line numbers excluded), joined by newline in original order, each
text verbatim. -/
theorem prompt_from_finding_fields_verbatim (f : Finding) :
    extractPrompt (encodeFinding f) = .ok (f.check_id, specPrompt f) ∧
    specPrompt f = buildPrompt f.check_name f.check_id f.resource f.file_path
      (String.intercalate "\n" (f.code_block.map Prod.snd)) :=
  ⟨extractPrompt_encode f, rfl⟩

/-- Claim C9 (confirmed): the new prompt carried by an advisory request is a
deterministic function of the finding alone — for the same finding object,
any two attempts from any two prior conversation states and any two backend
outcomes produce byte-identical new prompt content, namely the prompt that
`extractPrompt` computes from the finding. -/
theorem prompt_function_of_finding_alone (check : Json) (c c' : List Msg)
    (o o' : LLMOutcome) (cid p : String) (h : extractPrompt check = .ok (cid, p)) :
    newPromptContent c (adviseStepJ c check o) = some p ∧
    newPromptContent c' (adviseStepJ c' check o') = some p := by
  constructor <;> simp [newPromptContent, adviseStepJ, h]

/-- Claim C9, witness: two attempts on the same finding from different
conversations and backend outcomes carry the same prompt. -/
theorem prompt_function_of_finding_alone_witness :
    newPromptContent initialConv
        (adviseStepJ initialConv (encodeFinding exFinding) (.ok "use a private acl"))
      = some (specPrompt exFinding) ∧
    newPromptContent [] (adviseStepJ [] (encodeFinding exFinding) .err)
      = some (specPrompt exFinding) :=
  prompt_function_of_finding_alone (encodeFinding exFinding) initialConv []
    (.ok "use a private acl") .err "CKV_AWS_1" (specPrompt exFinding) rfl

/-- Claim C10 (confirmed): each loop iteration dispatches on the raw input
stripped of surrounding whitespace and lowercased — two raw inputs with the
same normalization behave identically, so command words match
case-insensitively — and the free-text fallback appends the normalized
(lowercased) text to the conversation and sends that to the model, not the
text as typed. -/
theorem input_stripped_lowercased_dispatch (w : World) (c : List Msg) (s t : String)
    (h : normalizeInput s = normalizeInput t) :
    loopStep w c s = loopStep w c t ∧
    (isCommandWord (normalizeInput s) = false →
      loopStep w c s = .ok ⟨c ++ [⟨"user", normalizeInput s⟩,
          ⟨"assistant", get_response (w.llm 0)⟩],
        ["\nü§ñ GPT-4o:\n" ++ get_response (w.llm 0) ++ "\n"], false, [], false⟩) := by
  constructor
  · simp [loopStep, h]
  · intro hnc
    simp only [isCommandWord, Bool.or_eq_false_iff, beq_eq_false_iff_ne, ne_eq] at hnc
    obtain ⟨⟨⟨⟨⟨h1, h2⟩, h3⟩, h4⟩, h5⟩, h6⟩ := hnc
    simp [loopStep, dispatch, h1, h2, h3, h4, h5, h6]

/-- Claim C10, witness: a padded mixed-case free-text input behaves like its
normalization and is appended to the conversation in lowercased form. -/
theorem input_stripped_lowercased_dispatch_witness :
    loopStep exWorldChat initialConv "  ChAt Hi " = loopStep exWorldChat initialConv "chat hi" ∧
    loopStep exWorldChat initialConv "  ChAt Hi "
      = .ok ⟨initialConv ++ [⟨"user", normalizeInput "  ChAt Hi "⟩,
          ⟨"assistant", get_response (exWorldChat.llm 0)⟩],
        ["\nü§ñ GPT-4o:\n" ++ get_response (exWorldChat.llm 0) ++ "\n"], false, [], false⟩ :=
  ⟨(input_stripped_lowercased_dispatch exWorldChat initialConv "  ChAt Hi " "chat hi"
      (by decide)).1,
   (input_stripped_lowercased_dispatch exWorldChat initialConv "  ChAt Hi " "chat hi"
      (by decide)).2 (by decide)⟩
